import Mathlib

/-!
Verification of the Sentry-to-Bitrix24 webhook relay (src/app/main.py).

The embedding models the parsed JSON body as an inductive `JVal`, Python
dictionary access, truthiness and string rendering as explicit functions,
and the two request handlers as Lean functions.  Python exceptions are
modelled with `Except PyExn`; the outbound HTTP call is modelled by an
oracle argument of type `Except String HttpResponse` (transport exception
or a received response).
-/

/-- A parsed JSON value, as produced by request.json() in the handler. -/
inductive JVal where
  | null
  | bool (b : Bool)
  | num (n : Int)
  | str (s : String)
  | arr (elems : List JVal)
  | obj (items : List (String × JVal))

/-- Python exceptions that the modelled code can raise. -/
inductive PyExn where
  | attributeError
  | unboundLocalError
deriving DecidableEq

mutual
/-- Python repr() of a JSON value (string escaping inside repr is not
modelled; no claim depends on it). -/
def pyRepr : JVal → String
  | JVal.null => "None"
  | JVal.bool true => "True"
  | JVal.bool false => "False"
  | JVal.num n => toString n
  | JVal.str s => "\x27" ++ s ++ "\x27"
  | JVal.arr xs => "[" ++ String.intercalate ", " (pyReprElems xs) ++ "]"
  | JVal.obj kvs => "\x7b" ++ String.intercalate ", " (pyReprItems kvs) ++ "\x7d"

def pyReprElems : List JVal → List String
  | [] => []
  | v :: vs => pyRepr v :: pyReprElems vs

def pyReprItems : List (String × JVal) → List String
  | [] => []
  | (k, v) :: kvs => ("\x27" ++ k ++ "\x27: " ++ pyRepr v) :: pyReprItems kvs
end

/-- Python str() of a JSON value, as interpolated by an f-string. -/
def pyStr : JVal → String
  | JVal.str s => s
  | v => pyRepr v

/-- Python str.lower (ASCII case folding suffices for the modelled data). -/
def pyLower (s : String) : String :=
  String.mk (s.data.map Char.toLower)

/-- Characters stripped by Python str.strip(). -/
def isPySpace (c : Char) : Bool :=
  c == ' ' || c == '\t' || c == '\n' || c == '\r' || c == '\x0b' || c == '\x0c'

/-- Python str.strip(): remove leading and trailing whitespace. -/
def pyStrip (s : String) : String :=
  String.mk (((s.data.dropWhile isPySpace).reverse.dropWhile isPySpace).reverse)

/-- The module-level configuration read from the environment at startup
(main.py lines 16-19). -/
structure Config where
  BITRIX24_WEBHOOK_URL : String
  BITRIX24_DIALOG_ID : Option String
  SENTRY_DSN : String
  ALLOWED_ENVIRONMENTS : List String

/-- The DIALOG_ID value placed in the outbound dictionary: the configured
identifier, or Python None when the variable was unset (main.py line 53). -/
def dialogIdValue (cfg : Config) : JVal :=
  match cfg.BITRIX24_DIALOG_ID with
  | none => JVal.null
  | some s => JVal.str s

/-- The MESSAGE f-string of main.py lines 54-63, built from the payload
dictionary items and the event dictionary items.  dict.get with no default
yields None for an absent key; event.get("platform", "unknown") defaults
to the string "unknown". -/
def buildChatMessage (kvs ekvs : List (String × JVal)) : String :=
  "*ID*: " ++ pyStr ((kvs.lookup "id").getD JVal.null) ++ "\n" ++
  "*Project*: " ++ pyStr ((kvs.lookup "project_name").getD JVal.null) ++ "\n" ++
  "*Environment*: " ++ pyStr ((ekvs.lookup "environment").getD JVal.null) ++ "\n" ++
  "*Level*: " ++ pyStr ((kvs.lookup "level").getD JVal.null) ++ "\n" ++
  "*Culprit*: " ++ pyStr ((kvs.lookup "culprit").getD JVal.null) ++ "\n" ++
  "*Message*: " ++ pyStr ((kvs.lookup "message").getD JVal.null) ++ "\n" ++
  "*Platform*: " ++ pyStr ((ekvs.lookup "platform").getD (JVal.str "unknown")) ++ "\n" ++
  "*URL*: " ++ pyStr ((kvs.lookup "url").getD JVal.null)

/-- transform_sentry_webhook_to_google_chat (main.py lines 43-64).

sentry_payload.get("event", \x7b\x7d) raises AttributeError unless the
payload is a dictionary; event.get("environment", "") raises unless the
event value is a dictionary; .lower() raises unless the environment value
is a string.  When lower-plus-strip of the environment is not a member of
ALLOWED_ENVIRONMENTS the function returns None (modelled as Option.none);
otherwise it returns the two-key dictionary of lines 52-64. -/
def transform_sentry_webhook_to_google_chat (cfg : Config) (sentry_payload : JVal) :
    Except PyExn (Option (List (String × JVal))) :=
  match sentry_payload with
  | JVal.obj kvs =>
    match (kvs.lookup "event").getD (JVal.obj []) with
    | JVal.obj ekvs =>
      match (ekvs.lookup "environment").getD (JVal.str "") with
      | JVal.str rawEnv =>
        if pyStrip (pyLower rawEnv) ∈ cfg.ALLOWED_ENVIRONMENTS then
          Except.ok (some [("DIALOG_ID", dialogIdValue cfg),
                           ("MESSAGE", JVal.str (buildChatMessage kvs ekvs))])
        else
          Except.ok none
      | _ => Except.error PyExn.attributeError
    | _ => Except.error PyExn.attributeError
  | _ => Except.error PyExn.attributeError

/-- An HTTP response received from the outbound POST. -/
structure HttpResponse where
  status_code : Nat
  text : String

/-- Outcome of handling one inbound request: whether the outbound POST was
issued, and either the returned JSON body with its HTTP status, or an
uncaught Python exception. -/
structure HandlerTrace where
  dispatched : Bool
  result : Except PyExn (Nat × List (String × String))

/-- Python truthiness test of line 88 (if not bitrix_message): None and the
empty dictionary are falsy. -/
def pyFalsyDict (m : Option (List (String × JVal))) : Bool :=
  match m with
  | none => true
  | some kvs => kvs.isEmpty

/-- receive_sentry_webhook (main.py lines 82-109), parameterised by the
outcome of the outbound POST.  A FastAPI handler returning a plain
dictionary produces an HTTP 200 inbound response.

When the outbound call raises httpx.RequestError, the except clause logs
and falls through to line 104, where the local variable response was never
assigned: Python raises UnboundLocalError. -/
def receive_sentry_webhook (cfg : Config) (data : JVal)
    (net : Except String HttpResponse) : HandlerTrace :=
  match transform_sentry_webhook_to_google_chat cfg data with
  | Except.error e => { dispatched := false, result := Except.error e }
  | Except.ok bitrix_message =>
    if pyFalsyDict bitrix_message then
      { dispatched := false,
        result := Except.ok (200,
          [("message", "Environment not allowed. Skipping notification.")]) }
    else
      match net with
      | Except.error _exc =>
        { dispatched := true, result := Except.error PyExn.unboundLocalError }
      | Except.ok response =>
        if response.status_code = 200 then
          { dispatched := true,
            result := Except.ok (200,
              [("message", "Webhook received and forwarded to Bitrix24 successfully")]) }
        else
          { dispatched := true,
            result := Except.ok (200,
              [("error", "Failed to send message to Bitrix24: " ++ response.text)]) }

/-- HTTP methods relevant to the routing table. -/
inductive Method where
  | GET
  | HEAD
  | POST
deriving DecidableEq

/-- Outcome of the health endpoint: status, body, and the number of
outbound HTTP calls made while handling it. -/
structure HealthTrace where
  status_code : Nat
  body : String
  outboundCalls : Nat
deriving DecidableEq

/-- health_check (main.py lines 77-79): returns Response(status_code=204)
with no body and performs no outbound call. -/
def health_check : HealthTrace :=
  { status_code := 204, body := "", outboundCalls := 0 }

/-- The /health-check route is registered for both HEAD (line 67) and GET
(line 72); other methods are not routed to it. -/
def handleHealthRoute (m : Method) : Option HealthTrace :=
  if m = Method.GET ∨ m = Method.HEAD then some health_check else none

/-- Python truthiness of a getenv result: None and the empty string are
falsy (the guard of main.py line 21 uses not). -/
def pyTruthyEnv (s : Option String) : Bool :=
  match s with
  | none => false
  | some v => !v.isEmpty

/-- Module import of main.py lines 16-24: read the four environment
variables, then raise ValueError when BITRIX24_WEBHOOK_URL or SENTRY_DSN
is falsy.  On error nothing after line 24 runs: sentry is not initialised
and the FastAPI app object is never created, so the server never serves. -/
def loadConfig (env : String → Option String) : Except String Config :=
  let url := env "BITRIX24_WEBHOOK_URL"
  let dialog := env "BITRIX24_DIALOG_ID"
  let dsn := env "SENTRY_DSN"
  let allowed := ((env "ALLOWED_ENVIRONMENTS").getD "production,prod").splitOn ","
  if !pyTruthyEnv url || !pyTruthyEnv dsn then
    Except.error
      "Please make sure that BITRIX24_WEBHOOK_URL and SENTRY_DSN are specified in the service.env file."
  else
    Except.ok { BITRIX24_WEBHOOK_URL := url.getD ""
                BITRIX24_DIALOG_ID := dialog
                SENTRY_DSN := dsn.getD ""
                ALLOWED_ENVIRONMENTS := allowed }

/-- A configuration with the default allow-list production,prod. -/
def cfgDefault : Config :=
  { BITRIX24_WEBHOOK_URL := "https://bitrix.example/webhook"
    BITRIX24_DIALOG_ID := some "chat1"
    SENTRY_DSN := "https://sentry.example/1"
    ALLOWED_ENVIRONMENTS := ["production", "prod"] }

/-- A configuration like cfgDefault but with no dialog identifier set. -/
def cfgNoDialog : Config :=
  { BITRIX24_WEBHOOK_URL := "https://bitrix.example/webhook"
    BITRIX24_DIALOG_ID := none
    SENTRY_DSN := "https://sentry.example/1"
    ALLOWED_ENVIRONMENTS := ["production", "prod"] }

/-- A configuration whose allow-list entry is upper-case, as produced by
ALLOWED_ENVIRONMENTS=PROD. -/
def cfgUpper : Config :=
  { BITRIX24_WEBHOOK_URL := "https://bitrix.example/webhook"
    BITRIX24_DIALOG_ID := some "chat1"
    SENTRY_DSN := "https://sentry.example/1"
    ALLOWED_ENVIRONMENTS := ["PROD"] }

/-- A minimal payload whose event environment is production. -/
def payloadProd : JVal :=
  JVal.obj [("event", JVal.obj [("environment", JVal.str "production")])]

/-- A minimal payload whose event environment is development. -/
def payloadDev : JVal :=
  JVal.obj [("event", JVal.obj [("environment", JVal.str "development")])]

/-- A payload with level error, environment production and platform python. -/
def payloadLevelError : JVal :=
  JVal.obj [("level", JVal.str "error"),
            ("event", JVal.obj [("environment", JVal.str "production"),
                                ("platform", JVal.str "python")])]

/-- The dictionary the transform produces for payloadProd under cfgDefault. -/
def chatProd : List (String × JVal) :=
  [("DIALOG_ID", JVal.str "chat1"),
   ("MESSAGE", JVal.str ("*ID*: None\n*Project*: None\n*Environment*: production\n" ++
     "*Level*: None\n*Culprit*: None\n*Message*: None\n*Platform*: unknown\n*URL*: None"))]

/-- The dictionary the transform produces for payloadLevelError under cfgDefault. -/
def chatLevelError : List (String × JVal) :=
  [("DIALOG_ID", JVal.str "chat1"),
   ("MESSAGE", JVal.str ("*ID*: None\n*Project*: None\n*Environment*: production\n" ++
     "*Level*: error\n*Culprit*: None\n*Message*: None\n*Platform*: python\n*URL*: None"))]

/-- The dictionary the transform produces for payloadProd under cfgNoDialog. -/
def chatProdNoDialog : List (String × JVal) :=
  [("DIALOG_ID", JVal.null),
   ("MESSAGE", JVal.str ("*ID*: None\n*Project*: None\n*Environment*: production\n" ++
     "*Level*: None\n*Culprit*: None\n*Message*: None\n*Platform*: unknown\n*URL*: None"))]

/-- Total dictionary field access used by the spec-side message description:
the value of a key, or a default when the key is absent or the value is not
a dictionary. -/
def jGet (v : JVal) (k : String) (d : JVal) : JVal :=
  match v with
  | JVal.obj kvs => (kvs.lookup k).getD d
  | _ => d

/-- Modelled from the spec: the human-readable multi-line text block with
labeled fields in fixed order ID, Project, Environment, Level, Culprit,
Message, Platform (default unknown when absent), URL; missing scalar
fields render as the absent-value representation of the host language. -/
def specOrderedMessageText (p : JVal) : String :=
  "*ID*: " ++ pyStr (jGet p "id" JVal.null) ++ "\n" ++
  "*Project*: " ++ pyStr (jGet p "project_name" JVal.null) ++ "\n" ++
  "*Environment*: " ++ pyStr (jGet (jGet p "event" (JVal.obj [])) "environment" JVal.null) ++ "\n" ++
  "*Level*: " ++ pyStr (jGet p "level" JVal.null) ++ "\n" ++
  "*Culprit*: " ++ pyStr (jGet p "culprit" JVal.null) ++ "\n" ++
  "*Message*: " ++ pyStr (jGet p "message" JVal.null) ++ "\n" ++
  "*Platform*: " ++ pyStr (jGet (jGet p "event" (JVal.obj [])) "platform" (JVal.str "unknown")) ++ "\n" ++
  "*URL*: " ++ pyStr (jGet p "url" JVal.null)

/-- Modelled from the claim wording for C3: membership of the incoming
environment value in the allow-list under a comparison that trims the
incoming value and is insensitive to the case of both the incoming value
and the allow-list entries. -/
def ciMember (incoming : String) (allow : List String) : Bool :=
  allow.any (fun entry => pyLower entry == pyLower (pyStrip incoming))

/-- Payload shapes on which the transform completes without raising: the
payload is a dictionary, its event field (with dictionary default) is a
dictionary, and the environment field (with empty-string default) is a
string. -/
def transformSafe (p : JVal) : Bool :=
  match p with
  | JVal.obj kvs =>
    match (kvs.lookup "event").getD (JVal.obj []) with
    | JVal.obj ekvs =>
      match (ekvs.lookup "environment").getD (JVal.str "") with
      | JVal.str _ => true
      | _ => false
    | _ => false
  | _ => false

/-- Inversion: a non-skip transform result arises only from a dictionary
payload whose event value is a dictionary, whose environment value is a
string passing the filter, and the result is exactly the two-key
dictionary of main.py lines 52-64. -/
theorem transform_ok_some_inv (cfg : Config) (p : JVal) (m : List (String × JVal))
    (h : transform_sentry_webhook_to_google_chat cfg p = Except.ok (some m)) :
    ∃ kvs ekvs e, p = JVal.obj kvs ∧
      (List.lookup "event" kvs).getD (JVal.obj []) = JVal.obj ekvs ∧
      (List.lookup "environment" ekvs).getD (JVal.str "") = JVal.str e ∧
      pyStrip (pyLower e) ∈ cfg.ALLOWED_ENVIRONMENTS ∧
      m = [("DIALOG_ID", dialogIdValue cfg),
           ("MESSAGE", JVal.str (buildChatMessage kvs ekvs))] := by
  unfold transform_sentry_webhook_to_google_chat at h
  split at h
  case _ kvs =>
    split at h
    case _ ekvs hev =>
      split at h
      case _ e henv =>
        split at h
        case isTrue hm =>
          exact ⟨kvs, ekvs, e, rfl, hev, henv, hm,
            (Option.some.inj (Except.ok.inj h)).symm⟩
        case isFalse hm =>
          exact Option.noConfusion (Except.ok.inj h)
      all_goals exact Except.noConfusion h
    all_goals exact Except.noConfusion h
  all_goals exact Except.noConfusion h

/-- The message built by the code equals the spec-side fixed-order text. -/
theorem buildChatMessage_eq_spec (kvs ekvs : List (String × JVal))
    (hev : (List.lookup "event" kvs).getD (JVal.obj []) = JVal.obj ekvs) :
    buildChatMessage kvs ekvs = specOrderedMessageText (JVal.obj kvs) := by
  simp [buildChatMessage, specOrderedMessageText, jGet, hev]

/-- C1: for a payload passing the environment filter, a transport-level
exception from the outbound POST is caught and logged, but the handler
then evaluates response.status_code on line 104 with the local variable
response never assigned, so handling the inbound request raises
UnboundLocalError instead of returning a structured Failed outcome; the
claim that the handler still returns a structured result is contradicted
by the code, while the spec states the intended behaviour. -/
theorem C1_transport_error_raises_unbound_local :
    receive_sentry_webhook cfgDefault payloadProd (Except.error "connection refused") =
      { dispatched := true, result := Except.error PyExn.unboundLocalError } := rfl

/-- C2 counterexample: a payload whose event field is null makes the
transform raise AttributeError on event.get, refuting the claim that it
returns a value for every input payload. -/
theorem C2_counterexample :
    transform_sentry_webhook_to_google_chat cfgDefault (JVal.obj [("event", JVal.null)]) =
      Except.error PyExn.attributeError := rfl

/-- C2 amended: the transform returns a value without raising exactly for
payloads that are dictionaries whose event field (when present) is a
dictionary and whose environment field (when present) is a string; on any
other shape it raises AttributeError. -/
theorem C2_no_raise_iff_safe_shape (cfg : Config) (p : JVal) :
    (∃ v, transform_sentry_webhook_to_google_chat cfg p = Except.ok v) ↔
      transformSafe p = true := by
  cases p with
  | obj kvs =>
    cases hev : (List.lookup "event" kvs).getD (JVal.obj []) with
    | obj ekvs =>
      cases henv : (List.lookup "environment" ekvs).getD (JVal.str "") with
      | str e =>
        by_cases hm : pyStrip (pyLower e) ∈ cfg.ALLOWED_ENVIRONMENTS <;>
          simp [transform_sentry_webhook_to_google_chat, transformSafe, hev, henv, hm]
      | null =>
        simp [transform_sentry_webhook_to_google_chat, transformSafe, hev, henv]
      | bool b =>
        simp [transform_sentry_webhook_to_google_chat, transformSafe, hev, henv]
      | num n =>
        simp [transform_sentry_webhook_to_google_chat, transformSafe, hev, henv]
      | arr xs =>
        simp [transform_sentry_webhook_to_google_chat, transformSafe, hev, henv]
      | obj kvs2 =>
        simp [transform_sentry_webhook_to_google_chat, transformSafe, hev, henv]
    | null =>
      simp [transform_sentry_webhook_to_google_chat, transformSafe, hev]
    | bool b =>
      simp [transform_sentry_webhook_to_google_chat, transformSafe, hev]
    | num n =>
      simp [transform_sentry_webhook_to_google_chat, transformSafe, hev]
    | str s =>
      simp [transform_sentry_webhook_to_google_chat, transformSafe, hev]
    | arr xs =>
      simp [transform_sentry_webhook_to_google_chat, transformSafe, hev]
  | null => simp [transform_sentry_webhook_to_google_chat, transformSafe]
  | bool b => simp [transform_sentry_webhook_to_google_chat, transformSafe]
  | num n => simp [transform_sentry_webhook_to_google_chat, transformSafe]
  | str s => simp [transform_sentry_webhook_to_google_chat, transformSafe]
  | arr xs => simp [transform_sentry_webhook_to_google_chat, transformSafe]

/-- C3 counterexample: the incoming value prod is a member of the
allow-list [PROD] under the case-insensitive comparison of the claim, yet
the transform returns the skip value, because the code lowercases only the
incoming value and compares allow-list entries verbatim. -/
theorem C3_counterexample :
    ciMember "prod" cfgUpper.ALLOWED_ENVIRONMENTS = true ∧
    transform_sentry_webhook_to_google_chat cfgUpper
      (JVal.obj [("event", JVal.obj [("environment", JVal.str "prod")])]) =
      Except.ok none := ⟨rfl, rfl⟩

/-- C3 amended: for a dictionary payload whose event value is a dictionary
and whose environment value is a string, the transform returns a non-skip
message exactly when the lowercased and stripped incoming value is
literally a member of the configured allow-list; allow-list entries are
compared verbatim, without case normalisation. -/
theorem C3_membership_verbatim (cfg : Config) (kvs ekvs : List (String × JVal)) (e : String)
    (hev : (List.lookup "event" kvs).getD (JVal.obj []) = JVal.obj ekvs)
    (henv : (List.lookup "environment" ekvs).getD (JVal.str "") = JVal.str e) :
    (∃ m, transform_sentry_webhook_to_google_chat cfg (JVal.obj kvs) =
        Except.ok (some m)) ↔
      pyStrip (pyLower e) ∈ cfg.ALLOWED_ENVIRONMENTS := by
  by_cases hm : pyStrip (pyLower e) ∈ cfg.ALLOWED_ENVIRONMENTS <;>
    simp [transform_sentry_webhook_to_google_chat, hev, henv, hm]

/-- C3 witness: the amended membership equivalence at a concrete payload
and the default configuration. -/
theorem C3_membership_verbatim_witness :
    (∃ m, transform_sentry_webhook_to_google_chat cfgDefault
        (JVal.obj [("event", JVal.obj [("environment", JVal.str "production")])]) =
        Except.ok (some m)) ↔
      pyStrip (pyLower "production") ∈ cfgDefault.ALLOWED_ENVIRONMENTS :=
  C3_membership_verbatim cfgDefault
    [("event", JVal.obj [("environment", JVal.str "production")])]
    [("environment", JVal.str "production")] "production" rfl rfl

/-- C4 counterexample: the empty payload is missing every listed field,
including event, yet under the default allow-list the transform returns
the skip value rather than a message, because the absent event yields the
empty environment, which is filtered out. -/
theorem C4_counterexample :
    List.lookup "event" ([] : List (String × JVal)) = none ∧
    transform_sentry_webhook_to_google_chat cfgDefault (JVal.obj []) =
      Except.ok none := ⟨rfl, rfl⟩

/-- C4 amended: when event is present with an environment passing the
filter, a payload missing all of id, project_name, level, culprit,
message, url and platform still yields the two-key message, each absent
scalar field rendered as None and platform as unknown; a payload missing
event entirely is instead filtered on the empty environment value. -/
theorem C4_missing_fields_render_none (cfg : Config) (e : String)
    (hm : pyStrip (pyLower e) ∈ cfg.ALLOWED_ENVIRONMENTS) :
    transform_sentry_webhook_to_google_chat cfg
        (JVal.obj [("event", JVal.obj [("environment", JVal.str e)])]) =
      Except.ok (some [("DIALOG_ID", dialogIdValue cfg),
        ("MESSAGE", JVal.str (
          "*ID*: " ++ "None" ++ "\n" ++
          "*Project*: " ++ "None" ++ "\n" ++
          "*Environment*: " ++ e ++ "\n" ++
          "*Level*: " ++ "None" ++ "\n" ++
          "*Culprit*: " ++ "None" ++ "\n" ++
          "*Message*: " ++ "None" ++ "\n" ++
          "*Platform*: " ++ "unknown" ++ "\n" ++
          "*URL*: " ++ "None"))]) := by
  have step : transform_sentry_webhook_to_google_chat cfg
      (JVal.obj [("event", JVal.obj [("environment", JVal.str e)])]) =
      if pyStrip (pyLower e) ∈ cfg.ALLOWED_ENVIRONMENTS then
        Except.ok (some [("DIALOG_ID", dialogIdValue cfg),
          ("MESSAGE", JVal.str (
            "*ID*: " ++ "None" ++ "\n" ++
            "*Project*: " ++ "None" ++ "\n" ++
            "*Environment*: " ++ e ++ "\n" ++
            "*Level*: " ++ "None" ++ "\n" ++
            "*Culprit*: " ++ "None" ++ "\n" ++
            "*Message*: " ++ "None" ++ "\n" ++
            "*Platform*: " ++ "unknown" ++ "\n" ++
            "*URL*: " ++ "None"))])
      else Except.ok none := rfl
  exact step.trans (if_pos hm)

/-- C4 witness: the amended statement at the concrete environment
production under the default configuration. -/
theorem C4_missing_fields_render_none_witness :
    transform_sentry_webhook_to_google_chat cfgDefault
        (JVal.obj [("event", JVal.obj [("environment", JVal.str "production")])]) =
      Except.ok (some [("DIALOG_ID", dialogIdValue cfgDefault),
        ("MESSAGE", JVal.str (
          "*ID*: " ++ "None" ++ "\n" ++
          "*Project*: " ++ "None" ++ "\n" ++
          "*Environment*: " ++ "production" ++ "\n" ++
          "*Level*: " ++ "None" ++ "\n" ++
          "*Culprit*: " ++ "None" ++ "\n" ++
          "*Message*: " ++ "None" ++ "\n" ++
          "*Platform*: " ++ "unknown" ++ "\n" ++
          "*URL*: " ++ "None"))]) :=
  C4_missing_fields_render_none cfgDefault "production" (by decide)

/-- C5: whenever the transform returns a message, its MESSAGE text is the
spec-side fixed-order labeled block (ID, Project, Environment, Level,
Culprit, Message, Platform defaulting to unknown, URL, with absent fields
rendered as None). -/
theorem C5_message_fixed_order (cfg : Config) (p : JVal) (m : List (String × JVal))
    (h : transform_sentry_webhook_to_google_chat cfg p = Except.ok (some m)) :
    m.lookup "MESSAGE" = some (JVal.str (specOrderedMessageText p)) := by
  obtain ⟨kvs, ekvs, e, hp, hev, henv, hm, hmEq⟩ := transform_ok_some_inv cfg p m h
  subst hp
  subst hmEq
  have hl : List.lookup "MESSAGE"
      [("DIALOG_ID", dialogIdValue cfg),
       ("MESSAGE", JVal.str (buildChatMessage kvs ekvs))] =
      some (JVal.str (buildChatMessage kvs ekvs)) := rfl
  rw [hl, buildChatMessage_eq_spec kvs ekvs hev]

/-- C5 witness: at a payload with level error and environment production,
the MESSAGE equals the spec-side text, and that text contains the line
fragment *Level*: error. -/
theorem C5_message_fixed_order_witness :
    (chatLevelError.lookup "MESSAGE" =
      some (JVal.str (specOrderedMessageText payloadLevelError))) ∧
    List.IsInfix "*Level*: error".data (specOrderedMessageText payloadLevelError).data :=
  ⟨C5_message_fixed_order cfgDefault payloadLevelError chatLevelError rfl,
   ⟨"*ID*: None\n*Project*: None\n*Environment*: production\n".data,
    "\n*Culprit*: None\n*Message*: None\n*Platform*: python\n*URL*: None".data, rfl⟩⟩

/-- C6: once the transform produced a message and the outbound POST
returned a response, status 200 yields the success message body, any other
status yields a body whose error field contains the outbound response
text, and the inbound HTTP status is 200 in both cases. -/
theorem C6_status_mapping (cfg : Config) (p : JVal) (m : List (String × JVal))
    (resp : HttpResponse)
    (h : transform_sentry_webhook_to_google_chat cfg p = Except.ok (some m)) :
    (resp.status_code = 200 →
      receive_sentry_webhook cfg p (Except.ok resp) =
        { dispatched := true,
          result := Except.ok (200,
            [("message", "Webhook received and forwarded to Bitrix24 successfully")]) }) ∧
    (resp.status_code ≠ 200 →
      receive_sentry_webhook cfg p (Except.ok resp) =
        { dispatched := true,
          result := Except.ok (200,
            [("error", "Failed to send message to Bitrix24: " ++ resp.text)]) } ∧
      List.IsInfix resp.text.data
        ("Failed to send message to Bitrix24: " ++ resp.text).data) := by
  obtain ⟨kvs, ekvs, e, hp, hev, henv, hm, hmEq⟩ := transform_ok_some_inv cfg p m h
  constructor
  · intro h200
    unfold receive_sentry_webhook
    rw [h]
    subst hmEq
    simp [pyFalsyDict, h200]
  · intro hne
    refine ⟨?_, ?_⟩
    · unfold receive_sentry_webhook
      rw [h]
      subst hmEq
      simp [pyFalsyDict, hne]
    · refine ⟨"Failed to send message to Bitrix24: ".data, [], ?_⟩
      simp

/-- C6 witness: the status mapping at a concrete accepted payload and a
concrete 500 response with body server error. -/
theorem C6_status_mapping_witness :
    ((500 : Nat) = 200 →
      receive_sentry_webhook cfgDefault payloadProd
          (Except.ok { status_code := 500, text := "server error" }) =
        { dispatched := true,
          result := Except.ok (200,
            [("message", "Webhook received and forwarded to Bitrix24 successfully")]) }) ∧
    ((500 : Nat) ≠ 200 →
      receive_sentry_webhook cfgDefault payloadProd
          (Except.ok { status_code := 500, text := "server error" }) =
        { dispatched := true,
          result := Except.ok (200,
            [("error", "Failed to send message to Bitrix24: " ++ "server error")]) } ∧
      List.IsInfix ("server error" : String).data
        ("Failed to send message to Bitrix24: " ++ "server error").data) :=
  C6_status_mapping cfgDefault payloadProd chatProd
    { status_code := 500, text := "server error" } rfl

/-- C7: when the transform returns the skip value, the handler returns the
skip message with inbound status 200 and the outbound POST is never
issued. -/
theorem C7_skip_never_dispatches (cfg : Config) (p : JVal)
    (net : Except String HttpResponse)
    (h : transform_sentry_webhook_to_google_chat cfg p = Except.ok none) :
    receive_sentry_webhook cfg p net =
      { dispatched := false,
        result := Except.ok (200,
          [("message", "Environment not allowed. Skipping notification.")]) } := by
  unfold receive_sentry_webhook
  rw [h]
  rfl

/-- C7 witness: a development-environment payload under the default
allow-list is skipped and no outbound call is made, even when the network
oracle would fail. -/
theorem C7_skip_never_dispatches_witness :
    receive_sentry_webhook cfgDefault payloadDev (Except.error "down") =
      { dispatched := false,
        result := Except.ok (200,
          [("message", "Environment not allowed. Skipping notification.")]) } :=
  C7_skip_never_dispatches cfgDefault payloadDev (Except.error "down") rfl

/-- C8: both GET and HEAD on /health-check are routed to health_check,
which returns status 204 with an empty body and makes no outbound call. -/
theorem C8_health_route_204 :
    handleHealthRoute Method.GET =
      some { status_code := 204, body := "", outboundCalls := 0 } ∧
    handleHealthRoute Method.HEAD =
      some { status_code := 204, body := "", outboundCalls := 0 } := ⟨rfl, rfl⟩

/-- C9: if the destination webhook URL or the telemetry DSN variable is
absent from the environment, the module-level guard raises ValueError, so
nothing after line 24 runs and the server never begins serving. -/
theorem C9_startup_guard (env : String → Option String)
    (h : env "BITRIX24_WEBHOOK_URL" = none ∨ env "SENTRY_DSN" = none) :
    loadConfig env = Except.error
      "Please make sure that BITRIX24_WEBHOOK_URL and SENTRY_DSN are specified in the service.env file." := by
  rcases h with h | h <;> simp [loadConfig, pyTruthyEnv, h]

/-- C9 witness: startup with an empty environment fails with the fatal
configuration error. -/
theorem C9_startup_guard_witness :
    loadConfig (fun _ => none) = Except.error
      "Please make sure that BITRIX24_WEBHOOK_URL and SENTRY_DSN are specified in the service.env file." :=
  C9_startup_guard (fun _ => none) (Or.inl rfl)

/-- C10: every non-skip transform result is a dictionary with exactly the
keys DIALOG_ID and MESSAGE in that order; DIALOG_ID carries the configured
destination identifier and is the null value when none was configured. -/
theorem C10_result_shape (cfg : Config) (p : JVal) (m : List (String × JVal))
    (h : transform_sentry_webhook_to_google_chat cfg p = Except.ok (some m)) :
    m.map Prod.fst = ["DIALOG_ID", "MESSAGE"] ∧
    m.lookup "DIALOG_ID" = some (dialogIdValue cfg) ∧
    (cfg.BITRIX24_DIALOG_ID = none → m.lookup "DIALOG_ID" = some JVal.null) := by
  obtain ⟨kvs, ekvs, e, hp, hev, henv, hm, hmEq⟩ := transform_ok_some_inv cfg p m h
  subst hmEq
  refine ⟨rfl, rfl, fun hd => ?_⟩
  have hl : List.lookup "DIALOG_ID"
      [("DIALOG_ID", dialogIdValue cfg),
       ("MESSAGE", JVal.str (buildChatMessage kvs ekvs))] =
      some (dialogIdValue cfg) := rfl
  rw [hl]
  simp [dialogIdValue, hd]

/-- C10 witness: the two-key shape at a concrete payload under a
configuration with no dialog identifier, where DIALOG_ID is null. -/
theorem C10_result_shape_witness :
    chatProdNoDialog.map Prod.fst = ["DIALOG_ID", "MESSAGE"] ∧
    chatProdNoDialog.lookup "DIALOG_ID" = some (dialogIdValue cfgNoDialog) ∧
    (cfgNoDialog.BITRIX24_DIALOG_ID = none →
      chatProdNoDialog.lookup "DIALOG_ID" = some JVal.null) :=
  C10_result_shape cfgNoDialog payloadProd chatProdNoDialog rfl
